import Mathlib

/-!
Verification model of the ZenSquid backend summary service
(`src/service/summary-service.ts` together with the shared zod schema module).

The service is a single webhook handler `handleSummary` that
(1) validates the inbound body against `requestSchema`,
(2) builds a prompt from the transcript and asks an AI chatbot,
(3) parses the reply with `JSON.parse` and validates it against the strict
    `insertMeetingMetadataSchema`,
(4) PUTs `{id, email, ...metadata}` to the metadata store,
(5) renders a four-slide deck, fetches a presigned upload URL, and PUTs the deck.

JSON values are modelled by an inductive `Json`; the external collaborators
(AI chatbot, metadata store, presigned-URL service, upload target) are an
explicit environment `Env`; outbound calls are recorded in an event trace;
thrown exceptions (`JSON.parse` syntax errors, `new Error(...)`) are modelled
with `Except`.

The repository holds two variants of `insertMeetingMetadataSchema`: a strict
one (every field required) and a partial one (every top-level field
`.optional()`).  `generatePresentation` accesses `data.takeaways` /
`data.actionItems` unconditionally on `z.infer<typeof
insertMeetingMetadataSchema>`, which only typechecks against the strict
variant, and the design notes describe the strict shape as the one applied to
the AI output; the strict variant is therefore the schema embedded for the
service path.
-/

/-- JSON values as produced by `JSON.parse`: null, booleans, numbers
(modelled as rationals), strings, arrays, and objects (key/value lists in
textual order). -/
inductive Json where
  | null : Json
  | bool : Bool → Json
  | num : Rat → Json
  | str : String → Json
  | arr : List Json → Json
  | obj : List (String × Json) → Json

/-- JSON whitespace characters. -/
def isJsonWs (c : Char) : Bool :=
  c = ' ' || c = '\t' || c = '\n' || c = '\r'

/-- Drop leading JSON whitespace. -/
def skipWs : List Char → List Char
  | [] => []
  | c :: cs => if isJsonWs c then skipWs cs else c :: cs

/-- Value of a hexadecimal digit, if any. -/
def hexVal (c : Char) : Option Nat :=
  if '0' ≤ c ∧ c ≤ '9' then some (c.toNat - 48)
  else if 'a' ≤ c ∧ c ≤ 'f' then some (c.toNat - 87)
  else if 'A' ≤ c ∧ c ≤ 'F' then some (c.toNat - 55)
  else none

/-- Parse the body of a JSON string (after the opening quote), handling the
escape sequences accepted by `JSON.parse`.  Returns the decoded characters
and the remaining input. -/
def pStringBody : List Char → Option (List Char × List Char)
  | [] => none
  | '"' :: rest => some ([], rest)
  | '\\' :: [] => none
  | '\\' :: e :: rest =>
    if e = '"' then (pStringBody rest).map (fun sr => ('"' :: sr.1, sr.2))
    else if e = '\\' then (pStringBody rest).map (fun sr => ('\\' :: sr.1, sr.2))
    else if e = '/' then (pStringBody rest).map (fun sr => ('/' :: sr.1, sr.2))
    else if e = 'b' then (pStringBody rest).map (fun sr => (Char.ofNat 8 :: sr.1, sr.2))
    else if e = 'f' then (pStringBody rest).map (fun sr => (Char.ofNat 12 :: sr.1, sr.2))
    else if e = 'n' then (pStringBody rest).map (fun sr => ('\n' :: sr.1, sr.2))
    else if e = 'r' then (pStringBody rest).map (fun sr => ('\r' :: sr.1, sr.2))
    else if e = 't' then (pStringBody rest).map (fun sr => ('\t' :: sr.1, sr.2))
    else if e = 'u' then
      match rest with
      | a :: b :: c :: d :: rest2 =>
        match hexVal a, hexVal b, hexVal c, hexVal d with
        | some x, some y, some z, some w =>
          (pStringBody rest2).map
            (fun sr => (Char.ofNat (((x * 16 + y) * 16 + z) * 16 + w) :: sr.1, sr.2))
        | _, _, _, _ => none
      | _ => none
    else none
  | c :: rest =>
    if c.toNat < 32 then none
    else (pStringBody rest).map (fun sr => (c :: sr.1, sr.2))

/-- Take the maximal run of decimal digits. -/
def takeDigits : List Char → List Char × List Char
  | [] => ([], [])
  | c :: cs =>
    if c.isDigit then
      let (ds, rest) := takeDigits cs
      (c :: ds, rest)
    else ([], c :: cs)

/-- Decimal value of a digit run. -/
def digitsToNat (ds : List Char) : Nat :=
  ds.foldl (fun a c => a * 10 + (c.toNat - 48)) 0

/-- Parse a JSON number (optional minus, integer part without leading zeros,
optional fraction; exponents are not used by any input considered here). -/
def pNumber (cs : List Char) : Option (Rat × List Char) :=
  let (neg, cs1) := match cs with
    | '-' :: r => (true, r)
    | _ => (false, cs)
  match takeDigits cs1 with
  | ([], _) => none
  | (ds, rest) =>
    if ds.length > 1 ∧ ds.head? = some '0' then none
    else
      let intv : Rat := (digitsToNat ds : Nat)
      match rest with
      | '.' :: rest2 =>
        match takeDigits rest2 with
        | ([], _) => none
        | (fs, rest3) =>
          let q : Rat := intv + (digitsToNat fs : Nat) / ((10 : Rat) ^ fs.length)
          some (if neg then -q else q, rest3)
      | _ => some (if neg then -intv else intv, rest)

mutual

/-- Fuel-based parser for a JSON value, modelling `JSON.parse`. -/
def pValue : Nat → List Char → Option (Json × List Char)
  | 0, _ => none
  | fuel + 1, cs =>
    match skipWs cs with
    | 'n' :: 'u' :: 'l' :: 'l' :: rest => some (.null, rest)
    | 't' :: 'r' :: 'u' :: 'e' :: rest => some (.bool true, rest)
    | 'f' :: 'a' :: 'l' :: 's' :: 'e' :: rest => some (.bool false, rest)
    | '"' :: rest => (pStringBody rest).map (fun sr => (.str ⟨sr.1⟩, sr.2))
    | '[' :: rest =>
      match skipWs rest with
      | ']' :: rest2 => some (.arr [], rest2)
      | rest2 => (pElems fuel rest2).map (fun ar => (.arr ar.1, ar.2))
    | '{' :: rest =>
      match skipWs rest with
      | '}' :: rest2 => some (.obj [], rest2)
      | rest2 => (pMembers fuel rest2).map (fun mr => (.obj mr.1, mr.2))
    | cs2 => (pNumber cs2).map (fun nr => (.num nr.1, nr.2))

/-- Parse the elements of a non-empty JSON array up to the closing bracket. -/
def pElems : Nat → List Char → Option (List Json × List Char)
  | 0, _ => none
  | fuel + 1, cs =>
    match pValue fuel cs with
    | none => none
    | some (v, rest) =>
      match skipWs rest with
      | ',' :: rest2 => (pElems fuel rest2).map (fun ar => (v :: ar.1, ar.2))
      | ']' :: rest2 => some ([v], rest2)
      | _ => none

/-- Parse the members of a non-empty JSON object up to the closing brace. -/
def pMembers : Nat → List Char → Option (List (String × Json) × List Char)
  | 0, _ => none
  | fuel + 1, cs =>
    match skipWs cs with
    | '"' :: rest =>
      match pStringBody rest with
      | none => none
      | some (k, rest2) =>
        match skipWs rest2 with
        | ':' :: rest3 =>
          match pValue fuel rest3 with
          | none => none
          | some (v, rest4) =>
            match skipWs rest4 with
            | ',' :: rest5 => (pMembers fuel rest5).map (fun mr => ((⟨k⟩, v) :: mr.1, mr.2))
            | '}' :: rest5 => some ([(⟨k⟩, v)], rest5)
            | _ => none
        | _ => none
    | _ => none

end

/-- Model of `JSON.parse`: `none` means the text is not valid JSON (at
runtime `JSON.parse` throws a `SyntaxError`). -/
def jsonParse (s : String) : Option Json :=
  match pValue (2 * s.length + 2) s.data with
  | some (v, rest) => if (skipWs rest).isEmpty then some v else none
  | none => none

/-- Hexadecimal digit character for a value below 16. -/
def hexDigit (n : Nat) : Char :=
  if n < 10 then Char.ofNat (48 + n) else Char.ofNat (87 + (n - 10))

/-- Escape of a single character inside a JSON string literal, as produced by
`JSON.stringify`. -/
def jsonEscapeChar (c : Char) : String :=
  if c = '"' then "\\\""
  else if c = '\\' then "\\\\"
  else if c = '\n' then "\\n"
  else if c = '\r' then "\\r"
  else if c = '\t' then "\\t"
  else if c = Char.ofNat 8 then "\\b"
  else if c = Char.ofNat 12 then "\\f"
  else if c.toNat < 32 then "\\u00" ++ String.mk [hexDigit (c.toNat / 16), hexDigit (c.toNat % 16)]
  else String.mk [c]

/-- A quoted JSON string literal, as produced by `JSON.stringify`. -/
def jsonQuote (s : String) : String :=
  "\"" ++ String.join (s.data.map jsonEscapeChar) ++ "\""

/-- A single block of the transcript: one utterance. -/
structure TranscriptBlock where
  personName : String
  timestamp : String
  text : String
deriving DecidableEq, Repr

/-- `JSON.stringify` rendering (indent 2) of one transcript block, as it
appears inside `JSON.stringify(transcript, null, 2)`. -/
def blockStringify (b : TranscriptBlock) : String :=
  "  \x7b\n    \"personName\": " ++ jsonQuote b.personName ++
  ",\n    \"timestamp\": " ++ jsonQuote b.timestamp ++
  ",\n    \"text\": " ++ jsonQuote b.text ++ "\n  \x7d"

/-- `JSON.stringify(transcript, null, 2)`: the transcript serialized as an
indented JSON array. -/
def stringifyTranscript : List TranscriptBlock → String
  | [] => "[]"
  | b :: bs =>
    "[\n" ++ String.intercalate ",\n" ((b :: bs).map blockStringify) ++ "\n]"

/-- Apostrophe character (kept out of literals). -/
def apos : Char := Char.ofNat 39

/-- Characters allowed anywhere in the local part of an email address by
zod's email pattern. -/
def isEmailLocalChar (c : Char) : Bool :=
  c.isAlpha || c.isDigit || c = '_' || c = apos || c = '+' || c = '-' || c = '.'

/-- Characters allowed as the final character of the local part. -/
def isEmailLocalLast (c : Char) : Bool :=
  c.isAlpha || c.isDigit || c = '_' || c = '+' || c = '-'

/-- No two consecutive dots. -/
def noDoubleDot : List Char → Bool
  | [] => true
  | '.' :: '.' :: _ => false
  | _ :: rest => noDoubleDot rest

/-- Local part of an email: non-empty, allowed characters only, no leading
dot, no double dot, final character restricted. -/
def emailLocalOk (l : List Char) : Bool :=
  match l with
  | [] => false
  | c :: _ =>
    (c ≠ '.' : Bool) && l.all isEmailLocalChar && noDoubleDot l &&
      (match l.getLast? with
       | some d => isEmailLocalLast d
       | none => false)

/-- A domain label: starts with an alphanumeric character, continues with
alphanumerics or hyphens. -/
def isLabelOk (l : List Char) : Bool :=
  match l with
  | [] => false
  | c :: rest => (c.isAlpha || c.isDigit) && rest.all (fun d => d.isAlpha || d.isDigit || d = '-')

/-- A top-level domain: at least two letters. -/
def isTldOk (l : List Char) : Bool :=
  if l.length < 2 then false else l.all Char.isAlpha

/-- Split a character list on a separator (the list of groups between
occurrences of the separator). -/
def splitOnChar (sep : Char) : List Char → List (List Char)
  | [] => [[]]
  | c :: cs =>
    if c = sep then [] :: splitOnChar sep cs
    else
      match splitOnChar sep cs with
      | [] => [[c]]
      | g :: gs => (c :: g) :: gs

/-- Domain part of an email: at least one label, a dot, then a TLD. -/
def emailDomainOk (l : List Char) : Bool :=
  let ps := splitOnChar '.' l
  match ps.getLast? with
  | none => false
  | some tld =>
    if ps.length < 2 then false
    else isTldOk tld && ps.dropLast.all isLabelOk

/-- Model of zod's `z.string().email()` check. -/
def zodEmailOk (s : String) : Bool :=
  match splitOnChar '@' s.data with
  | [lpart, domain] => emailLocalOk lpart && emailDomainOk domain
  | _ => false

/-- One issue of a zod validation error: the failing field path and a
message. -/
structure ZodIssue where
  path : List String
  message : String
deriving DecidableEq, Repr

/-- A zod validation error: the list of issues (non-empty on failure). -/
abbrev ZodError := List ZodIssue

/-- Prepend a path segment to every issue (descending into a field or an
array index). -/
def prefixIssues (seg : String) (e : ZodError) : ZodError :=
  e.map (fun i => ⟨seg :: i.path, i.message⟩)

/-- Applicative combination of two validation results, accumulating issues
from both sides the way zod reports every failing field. -/
def vApp : Except ZodError (α → β) → Except ZodError α → Except ZodError β
  | .ok f, .ok a => .ok (f a)
  | .ok _, .error e => .error e
  | .error e, .ok _ => .error e
  | .error e1, .error e2 => .error (e1 ++ e2)

/-- Last-wins lookup of a key in a JSON object, matching JavaScript object
semantics where a duplicated key keeps its last value. -/
def getField (kvs : List (String × Json)) (name : String) : Option Json :=
  kvs.foldl (fun acc kv => if kv.1 = name then some kv.2 else acc) none

/-- Validate a required object field: missing keys yield a `Required` issue,
and issues from the field validator are prefixed with the field name. -/
def fieldV (kvs : List (String × Json)) (name : String)
    (f : Json → Except ZodError α) : Except ZodError α :=
  match getField kvs name with
  | none => .error [⟨[name], "Required"⟩]
  | some j => (f j).mapError (prefixIssues name)

/-- Run a validator on the members of a JSON object; any other JSON value is
rejected (`z.object`). -/
def vObjWith (f : List (String × Json) → Except ZodError α) : Json → Except ZodError α
  | .obj kvs => f kvs
  | _ => .error [⟨[], "Expected object"⟩]

/-- `z.string()`. -/
def vString : Json → Except ZodError String
  | .str s => .ok s
  | _ => .error [⟨[], "Expected string"⟩]

/-- `z.string().min(1)`. -/
def vStringMin1 : Json → Except ZodError String
  | .str s => if s.length ≥ 1 then .ok s else .error [⟨[], "String must contain at least 1 character(s)"⟩]
  | _ => .error [⟨[], "Expected string"⟩]

/-- `z.number()`. -/
def vNumber : Json → Except ZodError Rat
  | .num q => .ok q
  | _ => .error [⟨[], "Expected number"⟩]

/-- `z.boolean()`. -/
def vBoolean : Json → Except ZodError Bool
  | .bool b => .ok b
  | _ => .error [⟨[], "Expected boolean"⟩]

/-- `z.string().email()`. -/
def vEmail : Json → Except ZodError String
  | .str s => if zodEmailOk s then .ok s else .error [⟨[], "Invalid email"⟩]
  | _ => .error [⟨[], "Expected string"⟩]

/-- Collect element results of an array, accumulating issues. -/
def collectV : List (Except ZodError α) → Except ZodError (List α)
  | [] => .ok []
  | r :: rs => vApp (vApp (.ok List.cons) r) (collectV rs)

/-- `z.array(f)`: every element must validate; issues carry the index. -/
def vArray (f : Json → Except ZodError α) : Json → Except ZodError (List α)
  | .arr xs => collectV (xs.enum.map (fun ix => (f ix.2).mapError (prefixIssues (toString ix.1))))
  | _ => .error [⟨[], "Expected array"⟩]

/-- Status enum of an action item: `z.enum(['pending', 'in_progress', 'completed'])`. -/
inductive ActionStatus where
  | pending
  | in_progress
  | completed
deriving DecidableEq, Repr

/-- Validator of the action-item status enum. -/
def vActionStatus : Json → Except ZodError ActionStatus
  | .str "pending" => .ok .pending
  | .str "in_progress" => .ok .in_progress
  | .str "completed" => .ok .completed
  | _ => .error [⟨[], "Invalid enum value"⟩]

/-- Resource type enum: `z.enum(['document', 'website', 'video', 'other'])`. -/
inductive ResourceType where
  | document
  | website
  | video
  | other
deriving DecidableEq, Repr

/-- Validator of the resource type enum. -/
def vResourceType : Json → Except ZodError ResourceType
  | .str "document" => .ok .document
  | .str "website" => .ok .website
  | .str "video" => .ok .video
  | .str "other" => .ok .other
  | _ => .error [⟨[], "Invalid enum value"⟩]

/-- An action item of the meeting metadata. -/
structure ActionItem where
  id : String
  description : String
  assignee : String
  deadline : String
  status : ActionStatus
deriving DecidableEq, Repr

/-- Validator of one action item object. -/
def vActionItem : Json → Except ZodError ActionItem :=
  vObjWith (fun kvs =>
    vApp (vApp (vApp (vApp (vApp (.ok ActionItem.mk)
      (fieldV kvs "id" vStringMin1))
      (fieldV kvs "description" vString))
      (fieldV kvs "assignee" vString))
      (fieldV kvs "deadline" vStringMin1))
      (fieldV kvs "status" vActionStatus))

/-- One tracked mood aspect. -/
structure MoodAspect where
  mood : String
  score : Rat
deriving DecidableEq, Repr

/-- Validator of one mood aspect object. -/
def vMoodAspect : Json → Except ZodError MoodAspect :=
  vObjWith (fun kvs =>
    vApp (vApp (.ok MoodAspect.mk)
      (fieldV kvs "mood" vString))
      (fieldV kvs "score" vNumber))

/-- The mood graph of the meeting. -/
structure MoodGraph where
  aspects : List MoodAspect
  timestamp : String
deriving DecidableEq, Repr

/-- Validator of the mood graph object. -/
def vMoodGraph : Json → Except ZodError MoodGraph :=
  vObjWith (fun kvs =>
    vApp (vApp (.ok MoodGraph.mk)
      (fieldV kvs "aspects" (vArray vMoodAspect)))
      (fieldV kvs "timestamp" vStringMin1))

/-- One timeline event. -/
structure TimelineEvent where
  startTime : String
  endTime : String
  topic : String
  speaker : String
deriving DecidableEq, Repr

/-- Validator of one timeline event object. -/
def vTimelineEvent : Json → Except ZodError TimelineEvent :=
  vObjWith (fun kvs =>
    vApp (vApp (vApp (vApp (.ok TimelineEvent.mk)
      (fieldV kvs "startTime" vStringMin1))
      (fieldV kvs "endTime" vStringMin1))
      (fieldV kvs "topic" vString))
      (fieldV kvs "speaker" vString))

/-- Engagement figures of one participant. -/
structure Engagement where
  participantId : String
  speakingTime : Rat
  interventionCount : Rat
  engagementScore : Rat
deriving DecidableEq, Repr

/-- Validator of one participant-engagement object. -/
def vEngagement : Json → Except ZodError Engagement :=
  vObjWith (fun kvs =>
    vApp (vApp (vApp (vApp (.ok Engagement.mk)
      (fieldV kvs "participantId" vString))
      (fieldV kvs "speakingTime" vNumber))
      (fieldV kvs "interventionCount" vNumber))
      (fieldV kvs "engagementScore" vNumber))

/-- One sentiment sample. -/
structure SentimentPoint where
  timestamp : String
  sentiment : Rat
deriving DecidableEq, Repr

/-- Validator of one sentiment point object. -/
def vSentimentPoint : Json → Except ZodError SentimentPoint :=
  vObjWith (fun kvs =>
    vApp (vApp (.ok SentimentPoint.mk)
      (fieldV kvs "timestamp" vStringMin1))
      (fieldV kvs "sentiment" vNumber))

/-- Sentiment of the meeting over time. -/
structure SentimentOverTime where
  overallSentiment : Rat
  sentimentPoints : List SentimentPoint
deriving DecidableEq, Repr

/-- Validator of the sentiment-over-time object. -/
def vSentimentOverTime : Json → Except ZodError SentimentOverTime :=
  vObjWith (fun kvs =>
    vApp (vApp (.ok SentimentOverTime.mk)
      (fieldV kvs "overallSentiment" vNumber))
      (fieldV kvs "sentimentPoints" (vArray vSentimentPoint)))

/-- One tracked question. -/
structure TrackedQuestion where
  id : String
  text : String
  askedBy : String
  timestamp : String
  answered : Bool
deriving DecidableEq, Repr

/-- Validator of one question object. -/
def vTrackedQuestion : Json → Except ZodError TrackedQuestion :=
  vObjWith (fun kvs =>
    vApp (vApp (vApp (vApp (vApp (.ok TrackedQuestion.mk)
      (fieldV kvs "id" vString))
      (fieldV kvs "text" vString))
      (fieldV kvs "askedBy" vString))
      (fieldV kvs "timestamp" vStringMin1))
      (fieldV kvs "answered" vBoolean))

/-- One resource link. -/
structure ResourceLink where
  id : String
  url : String
  title : String
  type : ResourceType
  mentionedAt : String
deriving DecidableEq, Repr

/-- Validator of one resource link object. -/
def vResourceLink : Json → Except ZodError ResourceLink :=
  vObjWith (fun kvs =>
    vApp (vApp (vApp (vApp (vApp (.ok ResourceLink.mk)
      (fieldV kvs "id" vString))
      (fieldV kvs "url" vString))
      (fieldV kvs "title" vString))
      (fieldV kvs "type" vResourceType))
      (fieldV kvs "mentionedAt" vStringMin1))

/-- Validated meeting metadata in the strict shape (every field required),
the parse result of `insertMeetingMetadataSchema`. -/
structure MeetingMetadata where
  title : String
  shortDescription : String
  description : String
  takeaways : List String
  actionItems : List ActionItem
  moodGraph : MoodGraph
  timeline : List TimelineEvent
  participantEngagement : List Engagement
  sentimentOverTime : SentimentOverTime
  questionTracker : List TrackedQuestion
  resourceLinks : List ResourceLink
  meetingEfficiencyScore : Rat
deriving DecidableEq, Repr

/-- `insertMeetingMetadataSchema.safeParse` (strict variant): validates a
JSON value into `MeetingMetadata`, accumulating issues field by field. -/
def insertMeetingMetadataSafeParse : Json → Except ZodError MeetingMetadata
  | .obj kvs =>
    vApp (vApp (vApp (vApp (vApp (vApp (vApp (vApp (vApp (vApp (vApp (vApp (.ok MeetingMetadata.mk)
      (fieldV kvs "title" vString))
      (fieldV kvs "shortDescription" vString))
      (fieldV kvs "description" vString))
      (fieldV kvs "takeaways" (vArray vString)))
      (fieldV kvs "actionItems" (vArray vActionItem)))
      (fieldV kvs "moodGraph" vMoodGraph))
      (fieldV kvs "timeline" (vArray vTimelineEvent)))
      (fieldV kvs "participantEngagement" (vArray vEngagement)))
      (fieldV kvs "sentimentOverTime" vSentimentOverTime))
      (fieldV kvs "questionTracker" (vArray vTrackedQuestion)))
      (fieldV kvs "resourceLinks" (vArray vResourceLink)))
      (fieldV kvs "meetingEfficiencyScore" vNumber)
  | _ => .error [⟨[], "Expected object"⟩]

/-- Validator of one transcript block object (`TranscriptBlockSchema`). -/
def vTranscriptBlock : Json → Except ZodError TranscriptBlock :=
  vObjWith (fun kvs =>
    vApp (vApp (vApp (.ok TranscriptBlock.mk)
      (fieldV kvs "personName" vStringMin1))
      (fieldV kvs "timestamp" vStringMin1))
      (fieldV kvs "text" vStringMin1))

/-- A validated inbound request, the parse result of `requestSchema`. -/
structure SummaryRequest where
  id : String
  email : String
  startTime : String
  endTime : String
  participants : List String
  transcript : List TranscriptBlock
deriving DecidableEq, Repr

/-- `requestSchema.safeParse`: validates the inbound webhook body. -/
def requestSafeParse : Json → Except ZodError SummaryRequest
  | .obj kvs =>
    vApp (vApp (vApp (vApp (vApp (vApp (.ok SummaryRequest.mk)
      (fieldV kvs "id" vStringMin1))
      (fieldV kvs "email" vEmail))
      (fieldV kvs "startTime" vStringMin1))
      (fieldV kvs "endTime" vStringMin1))
      (fieldV kvs "participants" (vArray vStringMin1)))
      (fieldV kvs "transcript" (vArray vTranscriptBlock))
  | _ => .error [⟨[], "Expected object"⟩]

/-- The required top-level keys of the strict `insertMeetingMetadataSchema`. -/
def metadataRequiredKeys : List String :=
  ["title", "shortDescription", "description", "takeaways", "actionItems",
   "moodGraph", "timeline", "participantEngagement", "sentimentOverTime",
   "questionTracker", "resourceLinks", "meetingEfficiencyScore"]

/-- Text of the prompt template before the interpolated
`JSON.stringify(transcript, null, 2)` (from `generatePrompt`). -/
def promptHead : String := "You are tasked with analyzing a provided meeting transcript and generating a summary in the specified format. The transcript is provided as an array of objects, where each object represents a block of text spoken by a participant. Each block has the following properties:\n\n- \x60personName\x60: the name of the participant who spoke the text\n- \x60timestamp\x60: the timestamp of when the text was spoken \n- \x60text\x60: the actual text spoken by the participant\n\n"

/-- Text of the prompt template after the interpolated transcript
(from `generatePrompt`). -/
def promptTail : String := "\n\nYour goal is to process this transcript and output a meeting metadata object that includes the following properties:\nAll Date and Time values should be in ISOString format. ALL THE SCORES SHOULD BE NUMBERS.\n\n\x60\x60\x60json\n\x7b\n  \"title\": \"a short, descriptive title for the meeting\",\n  \"shortDescription\": \"a brief summary of the meeting\",\n  \"description\": \"a longer, more detailed description of the meeting, must be at least 400 characters\",\n  \"takeaways\": \"a list of key takeaways or insights from the meeting\",\n  \"actionItems\": [\n    \x7b\n      \"id\": \"a unique identifier for the action item\",\n      \"description\": \"a description of the action item\",\n      \"assignee\": \"the person assigned to the action item\",\n      \"deadline\": \"the deadline for the action item, ISOString format\",\n      \"status\": \"the current status of the action item (\x27pending\x27, \x27in_progress\x27, \x27completed\x27)\"\n    \x7d\n  ],\n  \"moodGraph\": \x7b\n    \"aspects\": [\n      \x7b\n        \"mood\": \"the aspect or type of mood being tracked e.g. \x27happiness\x27, \x27stress\x27, \x27engagement\x27\",\n        \"score\": \"the score or intensity of that mood e.g. 0-100 number\"\n      \x7d,\n      \x7b\n        \"mood\": \"the aspect or type of mood being tracked e.g. \x27happiness\x27, \x27stress\x27, \x27engagement\x27, \x27confusion\x27\",, \x27engagement\x27\",\n        \"score\": \"the score or intensity of that mood e.g. 0-100 number\"\n      \x7d,\n      \x7b\n        \"mood\": \"the aspect or type of mood being tracked e.g. \x27happiness\x27, \x27stress\x27, \x27engagement\x27, \x27confusion\x27\",, \x27engagement\x27\",\n        \"score\": \"the score or intensity of that mood e.g. 0-100 number\"\n      \x7d\n    ],\n    \"timestamp\": \"the timestamp associated with the mood data\"\n  \x7d,\n  \"timeline\": [\n    \x7b\n      \"startTime\": \"the start time of the timeline event\",\n      \"endTime\": \"the end time of the timeline event\",\n      \"topic\": \"the topic or subject of the timeline event\",\n      \"speaker\": \"the speaker or presenter of the timeline event\"\n    \x7d\n  ],\n  \"participantEngagement\": [\n    \x7b\n      \"participantId\": \"the unique identifier of the participant\",\n      \"speakingTime\": \"the total time the participant spent speaking - number\",\n      \"interventionCount\": \"the number of times the participant intervened or spoke up - number\",\n      \"engagementScore\": \"an overall engagement score for the participant - number\"\n    \x7d\n  ],\n  \"sentimentOverTime\": \x7b\n    \"overallSentiment\": \"the overall sentiment score for the meeting - number\",\n    \"sentimentPoints\": [\n      \x7b\n        \"timestamp\": \"the timestamp associated with the sentiment data\",\n        \"sentiment\": \"the sentiment score at that timestamp - number\"\n      \x7d\n    ]\n  \x7d,\n  \"questionTracker\": [\n    \x7b\n      \"id\": \"a unique identifier for the question\",\n      \"text\": \"the text of the question\",\n      \"askedBy\": \"the participant who asked the question\",\n      \"timestamp\": \"the timestamp when the question was asked\",\n      \"answered\": \"a boolean indicating whether the question was answered\"\n    \x7d\n  ],\n  \"resourceLinks\": [\n    \x7b\n      \"id\": \"a unique identifier for the resource link\",\n      \"url\": \"the URL of the resource\",\n      \"title\": \"the title or description of the resource\",\n      \"type\": \"the type of resource (\x27document\x27, \x27website\x27, \x27video\x27, \x27other\x27)\",\n      \"mentionedAt\": \"the timestamp when the resource was mentioned\"\n    \x7d\n  ],\n  \"meetingEfficiencyScore\": \"an overall score representing the efficiency of the meeting - number\"\n\x7d\n\nThe input for this task is the meeting transcript, provided as an array of objects with the following structure:\n\n\x60\x60\x60json\n\x7b\n  \"transcript\": [\n    \x7b\n      \"personName\": \"string\",\n      \"timestamp\": \"string\",\n      \"text\": \"string\"\n    \x7d\n  ]\n\x7d\n\x60\x60\x60\n\nYour task is to process this transcript and generate the meeting metadata object as described above. NEVER INCLUDE ANY PERSONAL INFORMATION, NEVER ADD INFORMATION THAT ISNT IN THE TRANSCRIPT, AND NEVER INCLUDE ANYTHING THAT COULD BE CONSIDERED OFFENSIVE OR INAPPROPRIATE. The output should be a JSON object that adheres to the specified format. Good luck!\n"

/-- `generatePrompt`: the instruction string sent to the AI chatbot, the
fixed template with the transcript embedded as indented JSON. -/
def generatePrompt (transcript : List TranscriptBlock) : String :=
  promptHead ++ stringifyTranscript transcript ++ promptTail

/-- A width/height option of `slide.addText`: a percentage string such as
`'80%'` or a length in inches. -/
inductive Dim where
  | pct : Nat → Dim
  | len : Rat → Dim
deriving DecidableEq, Repr

/-- The layout options passed to `slide.addText`. -/
structure TextOpts where
  x : Rat
  y : Rat
  w : Option Dim
  h : Option Dim
  fontSize : Nat
  bold : Bool
deriving DecidableEq, Repr

/-- A slide: the text boxes added to it, in insertion order. -/
abbrev Slide := List (String × TextOpts)

/-- A deck: the slides in insertion order (the serialized `.pptx` binary is
identified with this content). -/
abbrev Deck := List Slide

/-- `generatePresentation`: renders validated metadata into the fixed
four-slide deck (title, summary, key points, action items). -/
def generatePresentation (data : MeetingMetadata) (id : String) : Deck :=
  [ [(data.title, ⟨1, 1, some (Dim.pct 80), some (Dim.len 1), 24, true⟩)],
    [("Summary", ⟨1, 1 / 2, none, none, 18, true⟩),
     (data.description, ⟨1, 1, some (Dim.pct 80), some (Dim.len 4), 14, false⟩)],
    ("Key Points", ⟨1, 1 / 2, none, none, 18, true⟩) ::
      data.takeaways.enum.map
        (fun p => ("• " ++ p.2, ⟨1, 1 + (p.1 : Rat) * (1 / 2), none, none, 14, false⟩)),
    ("Action Items", ⟨1, 1 / 2, none, none, 18, true⟩) ::
      data.actionItems.enum.map
        (fun p => ("• " ++ p.2.description, ⟨1, 1 + (p.1 : Rat) * (1 / 2), none, none, 14, false⟩)) ]

/-- JSON encoding of an action status, as serialized into the PUT body. -/
def actionStatusJson : ActionStatus → Json
  | .pending => .str "pending"
  | .in_progress => .str "in_progress"
  | .completed => .str "completed"

/-- JSON encoding of a resource type. -/
def resourceTypeJson : ResourceType → Json
  | .document => .str "document"
  | .website => .str "website"
  | .video => .str "video"
  | .other => .str "other"

/-- JSON encoding of an action item. -/
def actionItemJson (a : ActionItem) : Json :=
  .obj [("id", .str a.id), ("description", .str a.description),
        ("assignee", .str a.assignee), ("deadline", .str a.deadline),
        ("status", actionStatusJson a.status)]

/-- JSON encoding of a mood aspect. -/
def moodAspectJson (a : MoodAspect) : Json :=
  .obj [("mood", .str a.mood), ("score", .num a.score)]

/-- JSON encoding of the mood graph. -/
def moodGraphJson (g : MoodGraph) : Json :=
  .obj [("aspects", .arr (g.aspects.map moodAspectJson)), ("timestamp", .str g.timestamp)]

/-- JSON encoding of a timeline event. -/
def timelineEventJson (t : TimelineEvent) : Json :=
  .obj [("startTime", .str t.startTime), ("endTime", .str t.endTime),
        ("topic", .str t.topic), ("speaker", .str t.speaker)]

/-- JSON encoding of a participant-engagement entry. -/
def engagementJson (e : Engagement) : Json :=
  .obj [("participantId", .str e.participantId), ("speakingTime", .num e.speakingTime),
        ("interventionCount", .num e.interventionCount), ("engagementScore", .num e.engagementScore)]

/-- JSON encoding of a sentiment point. -/
def sentimentPointJson (p : SentimentPoint) : Json :=
  .obj [("timestamp", .str p.timestamp), ("sentiment", .num p.sentiment)]

/-- JSON encoding of the sentiment-over-time object. -/
def sentimentOverTimeJson (s : SentimentOverTime) : Json :=
  .obj [("overallSentiment", .num s.overallSentiment),
        ("sentimentPoints", .arr (s.sentimentPoints.map sentimentPointJson))]

/-- JSON encoding of a tracked question. -/
def trackedQuestionJson (q : TrackedQuestion) : Json :=
  .obj [("id", .str q.id), ("text", .str q.text), ("askedBy", .str q.askedBy),
        ("timestamp", .str q.timestamp), ("answered", .bool q.answered)]

/-- JSON encoding of a resource link. -/
def resourceLinkJson (r : ResourceLink) : Json :=
  .obj [("id", .str r.id), ("url", .str r.url), ("title", .str r.title),
        ("type", resourceTypeJson r.type), ("mentionedAt", .str r.mentionedAt)]

/-- The key/value pairs of the validated metadata, in schema declaration
order — exactly the fields spread by `...parsedResult.data`. -/
def metadataPairs (m : MeetingMetadata) : List (String × Json) :=
  [("title", .str m.title),
   ("shortDescription", .str m.shortDescription),
   ("description", .str m.description),
   ("takeaways", .arr (m.takeaways.map Json.str)),
   ("actionItems", .arr (m.actionItems.map actionItemJson)),
   ("moodGraph", moodGraphJson m.moodGraph),
   ("timeline", .arr (m.timeline.map timelineEventJson)),
   ("participantEngagement", .arr (m.participantEngagement.map engagementJson)),
   ("sentimentOverTime", sentimentOverTimeJson m.sentimentOverTime),
   ("questionTracker", .arr (m.questionTracker.map trackedQuestionJson)),
   ("resourceLinks", .arr (m.resourceLinks.map resourceLinkJson)),
   ("meetingEfficiencyScore", .num m.meetingEfficiencyScore)]

/-- The body of the `PUT <backend>/meeting` call:
`JSON.stringify({id, email, ...parsedResult.data})`. -/
def persistBody (id email : String) (m : MeetingMetadata) : Json :=
  .obj (("id", .str id) :: ("email", .str email) :: metadataPairs m)

/-- An exception escaping `handleSummary`: either the `SyntaxError` thrown by
`JSON.parse` on an invalid AI reply, or a `new Error(message)`. -/
inductive Exn where
  | syntaxError : Exn
  | thrown : String → Exn
deriving DecidableEq, Repr

/-- The `error` field of the handler's result object: `null`, a fixed
message string, or the structured zod error. -/
inductive ErrVal where
  | null : ErrVal
  | msg : String → ErrVal
  | zod : ZodError → ErrVal
deriving DecidableEq, Repr

/-- The result object returned by `handleSummary`. -/
structure HandlerResult where
  success : Bool
  error : ErrVal
deriving DecidableEq, Repr

/-- One observable step of the pipeline: the AI invocation, each outbound
HTTP call, and the internal deck rendering. -/
inductive Event where
  | aiCall : String → Event
  | meetingPut : Json → Event
  | renderDeck : Deck → Event
  | signedUrlGet : String → Event
  | uploadPut : String → Deck → Event

/-- The external collaborators of one run: the AI chatbot's raw reply per
prompt, the metadata store's success flag per body, the presigned-URL
service's response per artifact name (`none` models a non-ok response), and
the upload target's success flag. -/
structure Env where
  ai : String → String
  meetingPut : Json → Bool
  signedUrl : String → Option String
  upload : String → Deck → Bool

/-- `getPresignedUploadUrl`: fetches the presigned URL; a non-ok response
throws `new Error('Failed to get pre-signed upload URL')`. -/
def getPresignedUploadUrl (env : Env) (id : String) : Except Exn String :=
  match env.signedUrl id with
  | none => .error (.thrown "Failed to get pre-signed upload URL")
  | some url => .ok url

/-- `handleSummary`: the webhook pipeline.  Returns the result object (or
the exception escaping the handler) together with the trace of pipeline
events in execution order. -/
def handleSummary (env : Env) (body : Json) : Except Exn HandlerResult × List Event :=
  match requestSafeParse body with
  | .error _ => (.ok ⟨false, .msg "Invalid request"⟩, [])
  | .ok req =>
    let prompt := generatePrompt req.transcript
    let result := env.ai prompt
    match jsonParse result with
    | none => (.error .syntaxError, [.aiCall prompt])
    | some parsed =>
      match insertMeetingMetadataSafeParse parsed with
      | .error e => (.ok ⟨false, .zod e⟩, [.aiCall prompt])
      | .ok data =>
        let putBody := persistBody req.id req.email data
        if env.meetingPut putBody then
          let deck := generatePresentation data req.id
          let artifact := "presentation-" ++ req.id ++ ".pptx"
          match getPresignedUploadUrl env artifact with
          | .error exn =>
            (.error exn,
             [.aiCall prompt, .meetingPut putBody, .renderDeck deck, .signedUrlGet artifact])
          | .ok url =>
            if env.upload url deck then
              (.ok ⟨true, .null⟩,
               [.aiCall prompt, .meetingPut putBody, .renderDeck deck,
                .signedUrlGet artifact, .uploadPut url deck])
            else
              (.ok ⟨false, .msg "Failed to upload presentation"⟩,
               [.aiCall prompt, .meetingPut putBody, .renderDeck deck,
                .signedUrlGet artifact, .uploadPut url deck])
        else
          (.ok ⟨false, .msg "Failed to update meeting metadata"⟩,
           [.aiCall prompt, .meetingPut putBody])

/-- The inbound request of the end-to-end scenario:
`{id:"m1", email:"a@b.com", startTime:"t0", endTime:"t1", participants:["Alice"],
transcript:[{personName:"Alice", timestamp:"t0", text:"hello"}]}`. -/
def sampleBody : Json := Json.obj
  [("id", .str "m1"), ("email", .str "a@b.com"), ("startTime", .str "t0"),
   ("endTime", .str "t1"), ("participants", .arr [.str "Alice"]),
   ("transcript", .arr [.obj [("personName", .str "Alice"), ("timestamp", .str "t0"),
                              ("text", .str "hello")]])]

/-- The validated form of `sampleBody`. -/
def sampleReq : SummaryRequest :=
  ⟨"m1", "a@b.com", "t0", "t1", ["Alice"], [⟨"Alice", "t0", "hello"⟩]⟩

/-- A fully-populated strict MeetingMetadata JSON object, as raw AI reply
text. -/
def sampleMetaStr : String :=
  "\x7b\"title\":\"T\",\"shortDescription\":\"S\",\"description\":\"D\",\"takeaways\":[\"K1\"],\"actionItems\":[\x7b\"id\":\"a1\",\"description\":\"Do\",\"assignee\":\"Alice\",\"deadline\":\"d1\",\"status\":\"pending\"\x7d],\"moodGraph\":\x7b\"aspects\":[\x7b\"mood\":\"happiness\",\"score\":80\x7d],\"timestamp\":\"t0\"\x7d,\"timeline\":[\x7b\"startTime\":\"t0\",\"endTime\":\"t1\",\"topic\":\"Intro\",\"speaker\":\"Alice\"\x7d],\"participantEngagement\":[\x7b\"participantId\":\"p1\",\"speakingTime\":60,\"interventionCount\":2,\"engagementScore\":90\x7d],\"sentimentOverTime\":\x7b\"overallSentiment\":70,\"sentimentPoints\":[\x7b\"timestamp\":\"t0\",\"sentiment\":70\x7d]\x7d,\"questionTracker\":[\x7b\"id\":\"q1\",\"text\":\"Q\",\"askedBy\":\"Alice\",\"timestamp\":\"t0\",\"answered\":true\x7d],\"resourceLinks\":[\x7b\"id\":\"r1\",\"url\":\"u\",\"title\":\"R\",\"type\":\"document\",\"mentionedAt\":\"t0\"\x7d],\"meetingEfficiencyScore\":85\x7d"

/-- The JSON value `JSON.parse` yields on `sampleMetaStr`. -/
def sampleMetaJson : Json := Json.obj
  [("title", .str "T"), ("shortDescription", .str "S"), ("description", .str "D"),
   ("takeaways", .arr [.str "K1"]),
   ("actionItems", .arr [.obj [("id", .str "a1"), ("description", .str "Do"),
     ("assignee", .str "Alice"), ("deadline", .str "d1"), ("status", .str "pending")]]),
   ("moodGraph", .obj [("aspects", .arr [.obj [("mood", .str "happiness"), ("score", .num 80)]]),
     ("timestamp", .str "t0")]),
   ("timeline", .arr [.obj [("startTime", .str "t0"), ("endTime", .str "t1"),
     ("topic", .str "Intro"), ("speaker", .str "Alice")]]),
   ("participantEngagement", .arr [.obj [("participantId", .str "p1"), ("speakingTime", .num 60),
     ("interventionCount", .num 2), ("engagementScore", .num 90)]]),
   ("sentimentOverTime", .obj [("overallSentiment", .num 70),
     ("sentimentPoints", .arr [.obj [("timestamp", .str "t0"), ("sentiment", .num 70)]])]),
   ("questionTracker", .arr [.obj [("id", .str "q1"), ("text", .str "Q"),
     ("askedBy", .str "Alice"), ("timestamp", .str "t0"), ("answered", .bool true)]]),
   ("resourceLinks", .arr [.obj [("id", .str "r1"), ("url", .str "u"), ("title", .str "R"),
     ("type", .str "document"), ("mentionedAt", .str "t0")]]),
   ("meetingEfficiencyScore", .num 85)]

/-- The validated form of `sampleMetaJson`. -/
def sampleMeta : MeetingMetadata :=
  ⟨"T", "S", "D", ["K1"],
   [⟨"a1", "Do", "Alice", "d1", .pending⟩],
   ⟨[⟨"happiness", 80⟩], "t0"⟩,
   [⟨"t0", "t1", "Intro", "Alice"⟩],
   [⟨"p1", 60, 2, 90⟩],
   ⟨70, [⟨"t0", 70⟩]⟩,
   [⟨"q1", "Q", "Alice", "t0", true⟩],
   [⟨"r1", "u", "R", .document, "t0"⟩],
   85⟩

/-- Environment in which every collaborator succeeds and the AI returns the
fully-populated metadata object. -/
def goodEnv : Env :=
  ⟨fun _ => sampleMetaStr, fun _ => true, fun _ => some "https://upload.test", fun _ _ => true⟩

/-- Environment in which the AI reply is not valid JSON. -/
def envBadAi : Env :=
  ⟨fun _ => "I could not produce JSON today", fun _ => true,
   fun _ => some "https://upload.test", fun _ _ => true⟩

/-- Environment in which the AI reply is the empty JSON object. -/
def envEmptyObj : Env :=
  ⟨fun _ => "\x7b\x7d", fun _ => true, fun _ => some "https://upload.test", fun _ _ => true⟩

/-- Environment in which the metadata store responds non-ok. -/
def envStoreFail : Env :=
  ⟨fun _ => sampleMetaStr, fun _ => false, fun _ => some "https://upload.test", fun _ _ => true⟩

/-- Environment in which the presigned-URL fetch responds non-ok. -/
def envPresignFail : Env :=
  ⟨fun _ => sampleMetaStr, fun _ => true, fun _ => none, fun _ _ => true⟩

/-- Environment in which the upload transfer responds non-ok. -/
def envUploadFail : Env :=
  ⟨fun _ => sampleMetaStr, fun _ => true, fun _ => some "https://upload.test", fun _ _ => false⟩

/-- A body lacking the `email` key. -/
def bodyNoEmail : Json :=
  Json.obj [("id", .str "m1"), ("startTime", .str "t0"), ("endTime", .str "t1"),
            ("participants", .arr []), ("transcript", .arr [])]

/-- A body whose `email` value is not a valid email address. -/
def bodyBadEmail : Json :=
  Json.obj [("id", .str "m1"), ("email", .str "not-an-email"), ("startTime", .str "t0"),
            ("endTime", .str "t1"), ("participants", .arr []), ("transcript", .arr [])]

/-- `sampleBody` with different `startTime`, `endTime` and `participants`. -/
def sampleBodyAlt : Json := Json.obj
  [("id", .str "m1"), ("email", .str "a@b.com"), ("startTime", .str "s7"),
   ("endTime", .str "s9"), ("participants", .arr [.str "Alice", .str "Bob"]),
   ("transcript", .arr [.obj [("personName", .str "Alice"), ("timestamp", .str "t0"),
                              ("text", .str "hello")]])]

/-- The validated form of `sampleBodyAlt`. -/
def sampleReqAlt : SummaryRequest :=
  ⟨"m1", "a@b.com", "s7", "s9", ["Alice", "Bob"], [⟨"Alice", "t0", "hello"⟩]⟩

/-- Keys of a JSON object (empty for non-objects). -/
def jsonKeys : Json → List String
  | .obj kvs => kvs.map Prod.fst
  | _ => []

/-- Field lookup on a JSON object value. -/
def jsonField (j : Json) (name : String) : Option Json :=
  match j with
  | .obj kvs => getField kvs name
  | _ => none

theorem vApp_ok {α β : Type} {r : Except ZodError (α → β)} {x : Except ZodError α}
    {b : β} (h : vApp r x = Except.ok b) :
    (∃ f, r = Except.ok f) ∧ ∃ a, x = Except.ok a := by
  cases r <;> cases x <;> simp [vApp] at h ⊢

theorem fieldV_ok {α : Type} {kvs : List (String × Json)} {k : String}
    {f : Json → Except ZodError α} {a : α} (h : fieldV kvs k f = Except.ok a) :
    ∃ j, getField kvs k = some j := by
  unfold fieldV at h
  cases hg : getField kvs k with
  | none => rw [hg] at h; simp at h
  | some j => exact ⟨j, rfl⟩

theorem metaParse_ok_keys {kvs : List (String × Json)} {m : MeetingMetadata}
    (h : insertMeetingMetadataSafeParse (Json.obj kvs) = Except.ok m) :
    ∀ k ∈ metadataRequiredKeys, ∃ j, getField kvs k = some j := by
  simp only [insertMeetingMetadataSafeParse] at h
  obtain ⟨⟨_, h11⟩, _, h12r⟩ := vApp_ok h
  obtain ⟨⟨_, h10⟩, _, h11r⟩ := vApp_ok h11
  obtain ⟨⟨_, h9⟩, _, h10r⟩ := vApp_ok h10
  obtain ⟨⟨_, h8⟩, _, h9r⟩ := vApp_ok h9
  obtain ⟨⟨_, h7⟩, _, h8r⟩ := vApp_ok h8
  obtain ⟨⟨_, h6⟩, _, h7r⟩ := vApp_ok h7
  obtain ⟨⟨_, h5⟩, _, h6r⟩ := vApp_ok h6
  obtain ⟨⟨_, h4⟩, _, h5r⟩ := vApp_ok h5
  obtain ⟨⟨_, h3⟩, _, h4r⟩ := vApp_ok h4
  obtain ⟨⟨_, h2⟩, _, h3r⟩ := vApp_ok h3
  obtain ⟨⟨_, h1⟩, _, h2r⟩ := vApp_ok h2
  obtain ⟨_, _, h1r⟩ := vApp_ok h1
  intro k hk
  simp only [metadataRequiredKeys, List.mem_cons, List.not_mem_nil, or_false] at hk
  rcases hk with rfl | rfl | rfl | rfl | rfl | rfl | rfl | rfl | rfl | rfl | rfl | rfl
  · exact fieldV_ok h1r
  · exact fieldV_ok h2r
  · exact fieldV_ok h3r
  · exact fieldV_ok h4r
  · exact fieldV_ok h5r
  · exact fieldV_ok h6r
  · exact fieldV_ok h7r
  · exact fieldV_ok h8r
  · exact fieldV_ok h9r
  · exact fieldV_ok h10r
  · exact fieldV_ok h11r
  · exact fieldV_ok h12r

theorem reqParse_ok_email {kvs : List (String × Json)} {r : SummaryRequest}
    (h : requestSafeParse (Json.obj kvs) = Except.ok r) :
    ∃ a, fieldV kvs "email" vEmail = Except.ok a := by
  simp only [requestSafeParse] at h
  obtain ⟨⟨_, h5⟩, _⟩ := vApp_ok h
  obtain ⟨⟨_, h4⟩, _⟩ := vApp_ok h5
  obtain ⟨⟨_, h3⟩, _⟩ := vApp_ok h4
  obtain ⟨⟨_, h2⟩, _⟩ := vApp_ok h3
  exact (vApp_ok h2).2

theorem getField_append_ne (kvs : List (String × Json)) (p : String × Json)
    (k : String) (h : p.1 ≠ k) : getField (kvs ++ [p]) k = getField kvs k := by
  unfold getField
  rw [List.foldl_append]
  simp [h]

theorem fieldV_append_ne {α : Type} (kvs : List (String × Json)) (p : String × Json)
    (k : String) (h : p.1 ≠ k) (f : Json → Except ZodError α) :
    fieldV (kvs ++ [p]) k f = fieldV kvs k f := by
  unfold fieldV
  rw [getField_append_ne kvs p k h]

theorem metaParse_extra_key (kvs : List (String × Json)) (p : String × Json)
    (hp : p.1 ∉ metadataRequiredKeys) :
    insertMeetingMetadataSafeParse (Json.obj (kvs ++ [p])) =
      insertMeetingMetadataSafeParse (Json.obj kvs) := by
  simp only [metadataRequiredKeys, List.mem_cons, List.not_mem_nil, or_false, not_or] at hp
  obtain ⟨n1, n2, n3, n4, n5, n6, n7, n8, n9, n10, n11, n12⟩ := hp
  simp only [insertMeetingMetadataSafeParse]
  rw [fieldV_append_ne kvs p _ n1, fieldV_append_ne kvs p _ n2,
      fieldV_append_ne kvs p _ n3, fieldV_append_ne kvs p _ n4,
      fieldV_append_ne kvs p _ n5, fieldV_append_ne kvs p _ n6,
      fieldV_append_ne kvs p _ n7, fieldV_append_ne kvs p _ n8,
      fieldV_append_ne kvs p _ n9, fieldV_append_ne kvs p _ n10,
      fieldV_append_ne kvs p _ n11, fieldV_append_ne kvs p _ n12]

/-- C1 (counterexample): on the valid end-to-end request, an AI reply that is
not valid JSON makes `handleSummary` propagate the `JSON.parse` exception
(there is no try/catch around `JSON.parse(result)`), instead of returning a
`{success:false}` object; the metadata store is never called (the trace holds
only the AI invocation). -/
theorem c1_counterexample :
    (handleSummary envBadAi sampleBody).1 = Except.error Exn.syntaxError ∧
    (handleSummary envBadAi sampleBody).2 = [Event.aiCall (generatePrompt sampleReq.transcript)] := by
  exact ⟨rfl, rfl⟩

/-- C1 (amended): for every run whose request validates and whose AI reply is
not valid JSON, `handleSummary` raises the `JSON.parse` syntax error as an
uncaught exception — it does not return a result object — and the metadata
store is never called (the trace is exactly the AI invocation). -/
theorem c1_invalid_json_throws :
    ∀ (env : Env) (body : Json) (req : SummaryRequest),
      requestSafeParse body = Except.ok req →
      jsonParse (env.ai (generatePrompt req.transcript)) = none →
      handleSummary env body =
        (Except.error Exn.syntaxError, [Event.aiCall (generatePrompt req.transcript)]) := by
  intro env body req h1 h2
  simp [handleSummary, h1, h2]

/-- C1 (witness): the amended claim at the concrete run of the
counterexample. -/
theorem c1_witness :
    handleSummary envBadAi sampleBody =
      (Except.error Exn.syntaxError, [Event.aiCall (generatePrompt sampleReq.transcript)]) :=
  c1_invalid_json_throws envBadAi sampleBody sampleReq rfl rfl

/-- C2: an AI reply that parses as JSON but lacks a required top-level field
of the strict shape never validates, and a failing validation makes the
pipeline return `{success:false}` carrying the structured zod error, with the
metadata store never called (the trace is exactly the AI invocation). -/
theorem c2_missing_required_field :
    (∀ (kvs : List (String × Json)) (k : String) (m : MeetingMetadata),
      k ∈ metadataRequiredKeys → getField kvs k = none →
      insertMeetingMetadataSafeParse (Json.obj kvs) ≠ Except.ok m) ∧
    (∀ (env : Env) (body : Json) (req : SummaryRequest) (mj : Json) (e : ZodError),
      requestSafeParse body = Except.ok req →
      jsonParse (env.ai (generatePrompt req.transcript)) = some mj →
      insertMeetingMetadataSafeParse mj = Except.error e →
      handleSummary env body =
        (Except.ok ⟨false, ErrVal.zod e⟩, [Event.aiCall (generatePrompt req.transcript)])) := by
  constructor
  · intro kvs k m hk hg h
    obtain ⟨j, hj⟩ := metaParse_ok_keys h k hk
    rw [hg] at hj
    cases hj
  · intro env body req mj e h1 h2 h3
    simp [handleSummary, h1, h2, h3]

/-- C2 (witness): the empty JSON object (missing `meetingEfficiencyScore`
among others) fails validation, and the pipeline returns the twelve
`Required` issues without calling the store. -/
theorem c2_witness :
    insertMeetingMetadataSafeParse (Json.obj []) ≠ Except.ok sampleMeta ∧
    handleSummary envEmptyObj sampleBody =
      (Except.ok ⟨false, ErrVal.zod (metadataRequiredKeys.map (fun k => ⟨[k], "Required"⟩))⟩,
       [Event.aiCall (generatePrompt sampleReq.transcript)]) := by
  constructor
  · exact c2_missing_required_field.1 [] "meetingEfficiencyScore" sampleMeta
      (by simp [metadataRequiredKeys]) rfl
  · exact c2_missing_required_field.2 envEmptyObj sampleBody sampleReq (Json.obj []) _ rfl rfl rfl

/-- C4: a body failing request validation makes `handleSummary` return
`{success:false, error:"Invalid request"}` with an empty trace (no AI
invocation, no outbound call); and a body missing the `email` key, or whose
`email` is not a valid email address, always fails request validation. -/
theorem c4_invalid_request_rejected :
    (∀ (env : Env) (body : Json) (e : ZodError), requestSafeParse body = Except.error e →
      handleSummary env body = (Except.ok ⟨false, ErrVal.msg "Invalid request"⟩, [])) ∧
    (∀ (kvs : List (String × Json)) (r : SummaryRequest), getField kvs "email" = none →
      requestSafeParse (Json.obj kvs) ≠ Except.ok r) ∧
    (∀ (kvs : List (String × Json)) (s : String) (r : SummaryRequest),
      getField kvs "email" = some (Json.str s) → zodEmailOk s = false →
      requestSafeParse (Json.obj kvs) ≠ Except.ok r) := by
  refine ⟨?_, ?_, ?_⟩
  · intro env body e h
    simp [handleSummary, h]
  · intro kvs r hg h
    obtain ⟨a, ha⟩ := reqParse_ok_email h
    obtain ⟨j, hj⟩ := fieldV_ok ha
    rw [hg] at hj
    cases hj
  · intro kvs s r hg hbad h
    obtain ⟨a, ha⟩ := reqParse_ok_email h
    unfold fieldV at ha
    rw [hg] at ha
    simp [vEmail, hbad, Except.mapError] at ha

/-- C4 (witness): the claim at a body missing `email` and at a body with a
malformed `email`. -/
theorem c4_witness :
    handleSummary goodEnv bodyNoEmail = (Except.ok ⟨false, ErrVal.msg "Invalid request"⟩, []) ∧
    requestSafeParse bodyNoEmail ≠ Except.ok sampleReq ∧
    requestSafeParse bodyBadEmail ≠ Except.ok sampleReq := by
  refine ⟨?_, ?_, ?_⟩
  · exact c4_invalid_request_rejected.1 goodEnv bodyNoEmail [⟨["email"], "Required"⟩] rfl
  · exact c4_invalid_request_rejected.2.1 _ sampleReq rfl
  · exact c4_invalid_request_rejected.2.2 _ "not-an-email" sampleReq rfl rfl

/-- C5: when the metadata-store upsert responds non-ok, `handleSummary`
returns `{success:false, error:"Failed to update meeting metadata"}` and the
trace is exactly the AI invocation followed by the single store call — no
deck is rendered, no presigned URL is requested, no upload is attempted. -/
theorem c5_store_failure_halts :
    ∀ (env : Env) (body : Json) (req : SummaryRequest) (mj : Json) (m : MeetingMetadata),
      requestSafeParse body = Except.ok req →
      jsonParse (env.ai (generatePrompt req.transcript)) = some mj →
      insertMeetingMetadataSafeParse mj = Except.ok m →
      env.meetingPut (persistBody req.id req.email m) = false →
      handleSummary env body =
        (Except.ok ⟨false, ErrVal.msg "Failed to update meeting metadata"⟩,
         [Event.aiCall (generatePrompt req.transcript),
          Event.meetingPut (persistBody req.id req.email m)]) := by
  intro env body req mj m h1 h2 h3 h4
  simp [handleSummary, h1, h2, h3, h4]

set_option maxRecDepth 100000 in
/-- C5 (witness): the claim at the concrete end-to-end run whose store
responds non-ok. -/
theorem c5_witness :
    handleSummary envStoreFail sampleBody =
      (Except.ok ⟨false, ErrVal.msg "Failed to update meeting metadata"⟩,
       [Event.aiCall (generatePrompt sampleReq.transcript),
        Event.meetingPut (persistBody "m1" "a@b.com" sampleMeta)]) :=
  c5_store_failure_halts envStoreFail sampleBody sampleReq sampleMetaJson sampleMeta
    rfl rfl rfl rfl

set_option maxRecDepth 100000 in
/-- C3 (counterexample): in the concrete run where every stage up to
persistence succeeds but the presigned-URL fetch responds non-ok,
`handleSummary` does not return `{success:false, error:"Failed to upload
presentation"}` — the `new Error('Failed to get pre-signed upload URL')`
thrown inside `getPresignedUploadUrl` escapes the handler uncaught (there is
no surrounding try/catch). -/
theorem c3_counterexample :
    (handleSummary envPresignFail sampleBody).1 =
      Except.error (Exn.thrown "Failed to get pre-signed upload URL") ∧
    (handleSummary envPresignFail sampleBody).2 =
      [Event.aiCall (generatePrompt sampleReq.transcript),
       Event.meetingPut (persistBody "m1" "a@b.com" sampleMeta),
       Event.renderDeck (generatePresentation sampleMeta "m1"),
       Event.signedUrlGet "presentation-m1.pptx"] := by
  exact ⟨rfl, rfl⟩

/-- C3 (amended): when all stages up to persistence succeed, a non-success
upload transfer makes `handleSummary` return `{success:false, error:"Failed
to upload presentation"}` with the metadata store invoked exactly once
beforehand; but a failing presigned-URL fetch instead raises `new
Error('Failed to get pre-signed upload URL')` uncaught (again after exactly
one store call). -/
theorem c3_upload_failure :
    (∀ (env : Env) (body : Json) (req : SummaryRequest) (mj : Json) (m : MeetingMetadata)
      (url : String),
      requestSafeParse body = Except.ok req →
      jsonParse (env.ai (generatePrompt req.transcript)) = some mj →
      insertMeetingMetadataSafeParse mj = Except.ok m →
      env.meetingPut (persistBody req.id req.email m) = true →
      env.signedUrl ("presentation-" ++ req.id ++ ".pptx") = some url →
      env.upload url (generatePresentation m req.id) = false →
      handleSummary env body =
        (Except.ok ⟨false, ErrVal.msg "Failed to upload presentation"⟩,
         [Event.aiCall (generatePrompt req.transcript),
          Event.meetingPut (persistBody req.id req.email m),
          Event.renderDeck (generatePresentation m req.id),
          Event.signedUrlGet ("presentation-" ++ req.id ++ ".pptx"),
          Event.uploadPut url (generatePresentation m req.id)])) ∧
    (∀ (env : Env) (body : Json) (req : SummaryRequest) (mj : Json) (m : MeetingMetadata),
      requestSafeParse body = Except.ok req →
      jsonParse (env.ai (generatePrompt req.transcript)) = some mj →
      insertMeetingMetadataSafeParse mj = Except.ok m →
      env.meetingPut (persistBody req.id req.email m) = true →
      env.signedUrl ("presentation-" ++ req.id ++ ".pptx") = none →
      handleSummary env body =
        (Except.error (Exn.thrown "Failed to get pre-signed upload URL"),
         [Event.aiCall (generatePrompt req.transcript),
          Event.meetingPut (persistBody req.id req.email m),
          Event.renderDeck (generatePresentation m req.id),
          Event.signedUrlGet ("presentation-" ++ req.id ++ ".pptx")])) := by
  constructor
  · intro env body req mj m url h1 h2 h3 h4 h5 h6
    simp [handleSummary, h1, h2, h3, h4, getPresignedUploadUrl, h5, h6]
  · intro env body req mj m h1 h2 h3 h4 h5
    simp [handleSummary, h1, h2, h3, h4, getPresignedUploadUrl, h5]

set_option maxRecDepth 100000 in
/-- C3 (witness): the amended claim at the concrete run whose upload target
responds non-ok. -/
theorem c3_witness :
    handleSummary envUploadFail sampleBody =
      (Except.ok ⟨false, ErrVal.msg "Failed to upload presentation"⟩,
       [Event.aiCall (generatePrompt sampleReq.transcript),
        Event.meetingPut (persistBody "m1" "a@b.com" sampleMeta),
        Event.renderDeck (generatePresentation sampleMeta "m1"),
        Event.signedUrlGet "presentation-m1.pptx",
        Event.uploadPut "https://upload.test" (generatePresentation sampleMeta "m1")]) :=
  c3_upload_failure.1 envUploadFail sampleBody sampleReq sampleMetaJson sampleMeta
    "https://upload.test" rfl rfl rfl rfl rfl rfl

/-- C7: when the request validates, the AI reply parses and validates, the
store upsert succeeds, the presigned-URL fetch succeeds and the upload
succeeds, `handleSummary` returns exactly `{success:true, error:null}`, after
the full trace of pipeline steps. -/
theorem c7_success_path :
    ∀ (env : Env) (body : Json) (req : SummaryRequest) (mj : Json) (m : MeetingMetadata)
      (url : String),
      requestSafeParse body = Except.ok req →
      jsonParse (env.ai (generatePrompt req.transcript)) = some mj →
      insertMeetingMetadataSafeParse mj = Except.ok m →
      env.meetingPut (persistBody req.id req.email m) = true →
      env.signedUrl ("presentation-" ++ req.id ++ ".pptx") = some url →
      env.upload url (generatePresentation m req.id) = true →
      handleSummary env body =
        (Except.ok ⟨true, ErrVal.null⟩,
         [Event.aiCall (generatePrompt req.transcript),
          Event.meetingPut (persistBody req.id req.email m),
          Event.renderDeck (generatePresentation m req.id),
          Event.signedUrlGet ("presentation-" ++ req.id ++ ".pptx"),
          Event.uploadPut url (generatePresentation m req.id)]) := by
  intro env body req mj m url h1 h2 h3 h4 h5 h6
  simp [handleSummary, h1, h2, h3, h4, getPresignedUploadUrl, h5, h6]

set_option maxRecDepth 100000 in
/-- C7 (witness): the claim at the spec's end-to-end request
`{id:"m1", email:"a@b.com", ...}` with a fully-populated strict metadata
reply and all collaborators succeeding: the result is exactly
`{success:true, error:null}`. -/
theorem c7_witness :
    handleSummary goodEnv sampleBody =
      (Except.ok ⟨true, ErrVal.null⟩,
       [Event.aiCall (generatePrompt sampleReq.transcript),
        Event.meetingPut (persistBody "m1" "a@b.com" sampleMeta),
        Event.renderDeck (generatePresentation sampleMeta "m1"),
        Event.signedUrlGet "presentation-m1.pptx",
        Event.uploadPut "https://upload.test" (generatePresentation sampleMeta "m1")]) :=
  c7_success_path goodEnv sampleBody sampleReq sampleMetaJson sampleMeta
    "https://upload.test" rfl rfl rfl rfl rfl rfl

/-- A metadata value with no takeaways, exercising the empty key-points
slide. -/
def sampleMetaNoTakeaways : MeetingMetadata :=
  ⟨"T", "S", "D", [],
   [⟨"a1", "Do", "Alice", "d1", .pending⟩],
   ⟨[⟨"happiness", 80⟩], "t0"⟩,
   [⟨"t0", "t1", "Intro", "Alice"⟩],
   [⟨"p1", 60, 2, 90⟩],
   ⟨70, [⟨"t0", 70⟩]⟩,
   [⟨"q1", "Q", "Alice", "t0", true⟩],
   [⟨"r1", "u", "R", .document, "t0"⟩],
   85⟩

/-- C6: for every strict metadata value, the rendered deck has exactly four
slides in fixed order — title slide showing `title`, summary slide showing
`description`, key-points slide with one bulleted line per `takeaways` entry
in list order, action-items slide with one bulleted line per
`actionItems[].description` in list order — and empty `takeaways` still
yields a Key Points slide with zero bullet lines. -/
theorem c6_presentation_deck :
    ∀ (data : MeetingMetadata) (id : String),
      (generatePresentation data id).length = 4 ∧
      generatePresentation data id =
        [ [(data.title, ⟨1, 1, some (Dim.pct 80), some (Dim.len 1), 24, true⟩)],
          [("Summary", ⟨1, 1 / 2, none, none, 18, true⟩),
           (data.description, ⟨1, 1, some (Dim.pct 80), some (Dim.len 4), 14, false⟩)],
          ("Key Points", ⟨1, 1 / 2, none, none, 18, true⟩) ::
            data.takeaways.enum.map
              (fun p => ("• " ++ p.2, ⟨1, 1 + (p.1 : Rat) * (1 / 2), none, none, 14, false⟩)),
          ("Action Items", ⟨1, 1 / 2, none, none, 18, true⟩) ::
            data.actionItems.enum.map
              (fun p => ("• " ++ p.2.description,
                         ⟨1, 1 + (p.1 : Rat) * (1 / 2), none, none, 14, false⟩)) ] ∧
      (∀ i : Nat, (((generatePresentation data id).get? 2).getD []).get? (i + 1) =
        (data.takeaways.get? i).map
          (fun point => ("• " ++ point, ⟨1, 1 + (i : Rat) * (1 / 2), none, none, 14, false⟩))) ∧
      (∀ i : Nat, (((generatePresentation data id).get? 3).getD []).get? (i + 1) =
        (data.actionItems.get? i).map
          (fun item => ("• " ++ item.description,
                        ⟨1, 1 + (i : Rat) * (1 / 2), none, none, 14, false⟩))) ∧
      (data.takeaways = [] →
        (generatePresentation data id).get? 2 =
          some [("Key Points", ⟨1, 1 / 2, none, none, 18, true⟩)]) := by
  intro data id
  refine ⟨rfl, rfl, ?_, ?_, ?_⟩
  · intro i
    simp only [generatePresentation, List.get?_eq_getElem?, List.getElem?_cons_succ,
      List.getElem?_cons_zero, List.getElem?_map, List.getElem?_enum, Option.getD_some,
      Option.map_map]
    rfl
  · intro i
    simp only [generatePresentation, List.get?_eq_getElem?, List.getElem?_cons_succ,
      List.getElem?_cons_zero, List.getElem?_map, List.getElem?_enum, Option.getD_some,
      Option.map_map]
    rfl
  · intro h
    simp [generatePresentation, h]

/-- C6 (witness): the deck of a metadata value with empty `takeaways` still
holds the Key Points slide, with its header only. -/
theorem c6_witness :
    (generatePresentation sampleMetaNoTakeaways "m1").get? 2 =
      some [("Key Points", ⟨1, 1 / 2, none, none, 18, true⟩)] :=
  (c6_presentation_deck sampleMetaNoTakeaways "m1").2.2.2.2 rfl

/-- C8: the prompt builder is a pure deterministic function of the
transcript — equal transcripts give equal prompts, the prompt is the fixed
template text with `JSON.stringify(transcript, null, 2)` embedded verbatim
between its two halves, and the empty transcript embeds the empty list
`[]` in the same well-formed template. -/
theorem c8_prompt_builder :
    (∀ t1 t2 : List TranscriptBlock, t1 = t2 → generatePrompt t1 = generatePrompt t2) ∧
    (∀ t : List TranscriptBlock,
      generatePrompt t = promptHead ++ stringifyTranscript t ++ promptTail) ∧
    stringifyTranscript [] = "[]" ∧
    generatePrompt [] = promptHead ++ "[]" ++ promptTail := by
  refine ⟨?_, ?_, rfl, rfl⟩
  · intro t1 t2 h
    rw [h]
  · intro t
    rfl

/-- C8 (witness): the determinism conjunct at the end-to-end transcript. -/
theorem c8_witness :
    generatePrompt sampleReq.transcript = generatePrompt [⟨"Alice", "t0", "hello"⟩] :=
  c8_prompt_builder.1 sampleReq.transcript [⟨"Alice", "t0", "hello"⟩] rfl

/-- C9: the body PUT to the metadata store is exactly
`{id, email, ...validatedMetadata}` — its keys are `id`, `email` and the
twelve schema fields, its `id`/`email` are the request's values — and a key
outside the declared schema appended to the AI object (such as its own `id`
or `email`) leaves the validation result unchanged, so it can never override
the request's values. -/
theorem c9_persisted_body_exact :
    (∀ (env : Env) (body : Json) (req : SummaryRequest) (mj : Json) (m : MeetingMetadata),
      requestSafeParse body = Except.ok req →
      jsonParse (env.ai (generatePrompt req.transcript)) = some mj →
      insertMeetingMetadataSafeParse mj = Except.ok m →
      Event.meetingPut (persistBody req.id req.email m) ∈ (handleSummary env body).2) ∧
    (∀ (i e : String) (m : MeetingMetadata),
      jsonKeys (persistBody i e m) = "id" :: "email" :: metadataRequiredKeys ∧
      jsonField (persistBody i e m) "id" = some (Json.str i) ∧
      jsonField (persistBody i e m) "email" = some (Json.str e)) ∧
    (∀ (kvs : List (String × Json)) (p : String × Json), p.1 ∉ metadataRequiredKeys →
      insertMeetingMetadataSafeParse (Json.obj (kvs ++ [p])) =
        insertMeetingMetadataSafeParse (Json.obj kvs)) := by
  refine ⟨?_, ?_, fun kvs p hp => metaParse_extra_key kvs p hp⟩
  · intro env body req mj m h1 h2 h3
    cases hc : env.meetingPut (persistBody req.id req.email m) with
    | false => simp [handleSummary, h1, h2, h3, hc]
    | true =>
      cases hu : env.signedUrl ("presentation-" ++ req.id ++ ".pptx") with
      | none => simp [handleSummary, h1, h2, h3, hc, getPresignedUploadUrl, hu]
      | some url =>
        cases hup : env.upload url (generatePresentation m req.id) <;>
          simp [handleSummary, h1, h2, h3, hc, getPresignedUploadUrl, hu, hup]
  · intro i e m
    exact ⟨rfl, rfl, rfl⟩

set_option maxRecDepth 100000 in
/-- C9 (witness): the claim at the end-to-end run, at the concrete persisted
body, and at an AI object carrying its own `id` key. -/
theorem c9_witness :
    Event.meetingPut (persistBody "m1" "a@b.com" sampleMeta) ∈
      (handleSummary goodEnv sampleBody).2 ∧
    jsonKeys (persistBody "m1" "a@b.com" sampleMeta) = "id" :: "email" :: metadataRequiredKeys ∧
    insertMeetingMetadataSafeParse (Json.obj [("id", Json.str "evil")]) =
      insertMeetingMetadataSafeParse (Json.obj []) := by
  refine ⟨?_, ?_, ?_⟩
  · exact c9_persisted_body_exact.1 goodEnv sampleBody sampleReq sampleMetaJson sampleMeta
      rfl rfl rfl
  · exact (c9_persisted_body_exact.2.1 "m1" "a@b.com" sampleMeta).1
  · exact c9_persisted_body_exact.2.2 [] ("id", Json.str "evil") (by simp [metadataRequiredKeys])

/-- C10: two valid inbound bodies whose validated requests agree on `id`,
`email` and `transcript` (differing only in `startTime`, `endTime` and/or
`participants`) make `handleSummary` behave identically in the same
environment — same result and same trace (hence same prompt, same persisted
body, same deck, same artifact name). -/
theorem c10_unused_fields_noninterference :
    ∀ (env : Env) (b1 b2 : Json) (r1 r2 : SummaryRequest),
      requestSafeParse b1 = Except.ok r1 →
      requestSafeParse b2 = Except.ok r2 →
      r1.id = r2.id → r1.email = r2.email → r1.transcript = r2.transcript →
      handleSummary env b1 = handleSummary env b2 := by
  intro env b1 b2 r1 r2 h1 h2 hid hem htr
  simp only [handleSummary, h1, h2]
  rw [hid, hem, htr]

set_option maxRecDepth 100000 in
/-- C10 (witness): the claim at `sampleBody` and the same body with different
`startTime`, `endTime` and `participants`. -/
theorem c10_witness :
    handleSummary goodEnv sampleBody = handleSummary goodEnv sampleBodyAlt :=
  c10_unused_fields_noninterference goodEnv sampleBody sampleBodyAlt sampleReq sampleReqAlt
    rfl rfl rfl rfl rfl
